import Mathlib

/-!
# Stub audio recorder: `src/native/audio_capture_linux.cc`

A shallow embedding of the `AudioCapture` class, of the process-wide
`capture` pointer and of the two Node.js bindings `StartRecording` and
`StopRecording`, followed by theorems about them.

Modelling choices.

* A byte is a `Nat` below 256; the `char` array `wavHeader` is embedded as the
  list of the byte values `file.write` puts into the file.
* The file system is explicit state. A path is a `String` and names one file;
  whether `std::ofstream file(filename, std::ios::binary)` ends up open is
  read from the `writable` field, an oracle for the answer of the operating
  system. A successful open creates the file or truncates it to length zero,
  a failed open changes nothing.
* The `write` and `close` that follow a successful open can fail or store
  only part of the data (a full disk, a file size limit, a device that
  discards what it is given); the source does not test the stream after
  them. The `room` field is the oracle for it: the number of bytes the file
  at a path takes from a write.
* A method of `AudioCapture` takes the object and returns the updated object
  next to its C++ result; the methods that touch a file also take and return
  the file system.
-/

namespace StubRecorder

/-! ## Bytes and files -/

/-- One byte, as its unsigned value. -/
abbrev Byte := Nat

/-- The files of the machine (`contents p = none`: no file at `p`) and, for
every path, whether opening it for writing succeeds and how many bytes of a
write the file there takes. -/
structure FileSystem where
  contents : String → Option (List Byte)
  writable : String → Bool
  room : String → Nat

namespace FileSystem

/-- Replace what is stored at `path`. -/
def setContents (fs : FileSystem) (path : String) (bytes : List Byte) : FileSystem :=
  { fs with contents := fun q => if q = path then some bytes else fs.contents q }

/-- Constructor `std::ofstream(path, std::ios::binary)`: mode `out | binary`
truncates. `none` is a stream for which `is_open()` is false. -/
def ofstreamOpen (fs : FileSystem) (path : String) : Option FileSystem :=
  if fs.writable path then some (fs.setContents path []) else none

/-- Members `ofstream::write(data, n)` and `close()` on the stream opened at `path`:
the file has grown by the leading bytes of `data` it had room for, all of them
when `data.length ≤ fs.room path`. Nothing is reported to the caller here, who
would have to test the stream to learn of a failure. -/
def ofstreamWrite (fs : FileSystem) (path : String) (data : List Byte) : FileSystem :=
  fs.setContents path ((fs.contents path).getD [] ++ data.take (fs.room path))

end FileSystem

/-! ## class AudioCapture -/

/-- Array `wavHeader` of `AudioCapture::StartRecording`, source lines 28-33, row by
row. `0xAC` and `0xB1` are stored in a `char`; the byte written is the same. -/
def wavHeader : List Byte :=
  [ 'R'.toNat, 'I'.toNat, 'F'.toNat, 'F'.toNat, 0, 0, 0, 0, 'W'.toNat, 'A'.toNat, 'V'.toNat, 'E'.toNat,
    'f'.toNat, 'm'.toNat, 't'.toNat, (Char.ofNat 32).toNat, 16, 0, 0, 0, 1, 0, 2, 0,
    0x44, 0xAC, 0, 0, 0x10, 0xB1, 2, 0, 4, 0, 16, 0,
    'd'.toNat, 'a'.toNat, 't'.toNat, 'a'.toNat, 0, 0, 0, 0 ]

/-- Private members of `AudioCapture`. The default values are those the constructor
`AudioCapture() : isRecording(false) {}` leaves: the flag is false and
`filename` is the empty string. -/
structure AudioCapture where
  isRecording : Bool := false
  filename : String := ""

/-- What a call of `AudioCapture::StartRecording` leaves behind: the returned
`bool`, the object and the file system. -/
structure StartResult where
  ret : Bool
  self : AudioCapture
  fs : FileSystem

namespace AudioCapture

/-- Method `bool StartRecording(const char* fname)`, source lines 17-38. -/
def StartRecording (self : AudioCapture) (fs : FileSystem) (fname : String) : StartResult :=
  if self.isRecording then ⟨false, self, fs⟩
  else
    let self1 : AudioCapture := { self with filename := fname }
    let self2 : AudioCapture := { self1 with isRecording := true }
    match fs.ofstreamOpen self2.filename with
    | none => ⟨false, self2, fs⟩
    | some fs1 => ⟨true, self2, fs1.ofstreamWrite self2.filename wavHeader⟩

/-- Method `void StopRecording()`, source lines 40-46. -/
def StopRecording (self : AudioCapture) : AudioCapture :=
  if !self.isRecording then self
  else { self with isRecording := false }

/-- Method `bool IsRecording() const`, source lines 48-50. -/
def IsRecording (self : AudioCapture) : Bool :=
  self.isRecording

end AudioCapture

/-! ## The module: `static AudioCapture* capture` and the Node.js bindings -/

/-- A JavaScript value as the bindings can tell them apart. -/
inductive JsValue where
  | undefined
  | null
  | boolean (b : Bool)
  | number (n : Int)
  | string (s : String)
  | object
  deriving DecidableEq, Repr

namespace JsValue

/-- Test `v->IsString()`. -/
def IsString : JsValue → Bool
  | string _ => true
  | _ => false

end JsValue

/-- How a binding call ends for the JavaScript caller: `Nan::ThrowTypeError(msg)`
followed by `return`, or a value handed to `info.GetReturnValue().Set`. -/
inductive CallOutcome where
  | threwTypeError (msg : String)
  | returned (v : JsValue)
  deriving DecidableEq, Repr

/-- The state a binding runs in: the pointer `capture` (`none` is `nullptr`) and the
file system. -/
structure World where
  capture : Option AudioCapture := none
  fs : FileSystem

/-- Whether a session object exists and its flag is set. -/
def World.recording (w : World) : Bool :=
  match w.capture with
  | none => false
  | some c => c.IsRecording

/-- Outcome and final state of a binding call. -/
structure BindingResult where
  outcome : CallOutcome
  world : World

/-- Argument `info[i]`; V8 answers `undefined` past the end of the argument list. -/
def argAt (info : List JsValue) (i : Nat) : JsValue :=
  info.getD i JsValue.undefined

/-- Conversion `Nan::Utf8String filename(v)`: the text of `v` after JavaScript
`ToString`. -/
def Utf8String : JsValue → String
  | JsValue.undefined => "undefined"
  | JsValue.null => "null"
  | JsValue.boolean b => if b then "true" else "false"
  | JsValue.number n => toString n
  | JsValue.string s => s
  | JsValue.object => "[object Object]"

/-- The C string `*filename` read through a `const char*`: it ends at the first NUL. -/
def cString (s : String) : String :=
  String.mk (s.data.takeWhile (fun c => c != Char.ofNat 0))

namespace NanMethod

/-- Binding `NAN_METHOD(StartRecording)`, source lines 56-68. -/
def StartRecording (w : World) (info : List JsValue) : BindingResult :=
  if info.length < 1 || !(argAt info 0).IsString then
    ⟨CallOutcome.threwTypeError "Expected filename string", w⟩
  else
    let filename := Utf8String (argAt info 0)
    let cap : AudioCapture :=
      match w.capture with
      | none => {}
      | some c => c
    let r := cap.StartRecording w.fs (cString filename)
    ⟨CallOutcome.returned (JsValue.boolean r.ret), { capture := some r.self, fs := r.fs }⟩

/-- Binding `NAN_METHOD(StopRecording)`, source lines 70-75. -/
def StopRecording (w : World) (_info : List JsValue) : BindingResult :=
  let w1 : World :=
    match w.capture with
    | some c => { w with capture := some c.StopRecording }
    | none => w
  ⟨CallOutcome.returned (JsValue.boolean true), w1⟩

end NanMethod

/-! ## Sequences of calls on one `AudioCapture` -/

/-- A call a client makes on the object. -/
inductive Call where
  | start (fname : String)
  | stop
  deriving DecidableEq, Repr

/-- A call together with what it returned. -/
inductive Event where
  | started (fname : String) (ret : Bool)
  | stopped
  deriving DecidableEq, Repr

/-- Object, file system and the events so far, oldest first. -/
structure Session where
  self : AudioCapture
  fs : FileSystem
  events : List Event

/-- Perform one call. -/
def Session.step (s : Session) : Call → Session
  | Call.start fname =>
    let r := s.self.StartRecording s.fs fname
    ⟨r.self, r.fs, s.events ++ [Event.started fname r.ret]⟩
  | Call.stop => ⟨s.self.StopRecording, s.fs, s.events ++ [Event.stopped]⟩

/-- Perform the calls in order on a freshly constructed `AudioCapture`. -/
def runCalls (fs : FileSystem) (calls : List Call) : Session :=
  calls.foldl Session.step ⟨{}, fs, []⟩

/-- No `StopRecording` call among the events. -/
def noStop (evs : List Event) : Bool :=
  evs.all (fun e => e != Event.stopped)

/-- Some `StartRecording` call of the events returned true and no `StopRecording`
call came after the last such call. -/
def startedAndNotStopped : List Event → Bool
  | [] => false
  | Event.started _ true :: rest => noStop rest || startedAndNotStopped rest
  | _ :: rest => startedAndNotStopped rest

/-! ## Reading a WAV header -/

/-- Little-endian 16-bit integer at offset `off`. -/
def le16 (bs : List Byte) (off : Nat) : Nat :=
  bs.getD off 0 + 256 * bs.getD (off + 1) 0

/-- Little-endian 32-bit integer at offset `off`. -/
def le32 (bs : List Byte) (off : Nat) : Nat :=
  bs.getD off 0 + 256 * bs.getD (off + 1) 0 + 65536 * bs.getD (off + 2) 0
    + 16777216 * bs.getD (off + 3) 0

/-- The fields of a canonical 44-byte PCM header whose value the format derives
from the rest of the file. -/
inductive DerivedField where
  | riffChunkSize
  | fmtChunkSize
  | byteRate
  | blockAlign
  | dataChunkSize
  deriving DecidableEq, Repr

/-- The self-consistency rules of the WAV format, for a file that is a canonical
header followed by its sample data: a chunk size is the length of what follows
the size field inside that chunk (all the rest of the file for RIFF, the 16
bytes at offsets 20..35 for `fmt `, the bytes from offset 44 on for `data`), the
block align is `channels * bitsPerSample / 8` and the byte rate
`sampleRate * blockAlign`. -/
def fieldAgrees (file : List Byte) : DerivedField → Bool
  | DerivedField.riffChunkSize => le32 file 4 == file.length - 8
  | DerivedField.fmtChunkSize => le32 file 16 == 16
  | DerivedField.byteRate => le32 file 28 == le32 file 24 * le16 file 32
  | DerivedField.blockAlign => le16 file 32 == le16 file 22 * le16 file 34 / 8
  | DerivedField.dataChunkSize => le32 file 40 == file.length - 44

/-! ## Auxiliary facts -/

theorem FileSystem.contents_setContents_same (fs : FileSystem) (path : String)
    (bytes : List Byte) : (fs.setContents path bytes).contents path = some bytes := by
  simp [FileSystem.setContents]

/-- What the file holds after an open and a write. -/
theorem FileSystem.ofstreamWrite_after_open (fs : FileSystem) (path : String)
    (data : List Byte) :
    ((fs.setContents path []).ofstreamWrite path data).contents path
      = some (data.take (fs.room path)) := by
  simp [FileSystem.ofstreamWrite, FileSystem.setContents]

/-- What the file holds after an open and a write that stored everything. -/
theorem FileSystem.ofstreamWrite_all (fs : FileSystem) (path : String)
    (data : List Byte) (hroom : data.length ≤ fs.room path) :
    ((fs.setContents path []).ofstreamWrite path data).contents path = some data := by
  rw [FileSystem.ofstreamWrite_after_open, List.take_of_length_le hroom]

/-- Unfolding of `StartRecording` on an idle object whose file opens. -/
theorem AudioCapture.StartRecording_of_open (self : AudioCapture) (fs : FileSystem)
    (fname : String) (hidle : self.isRecording = false) (hopen : fs.writable fname = true) :
    self.StartRecording fs fname =
      ⟨true, { isRecording := true, filename := fname },
        (fs.setContents fname []).ofstreamWrite fname wavHeader⟩ := by
  simp [AudioCapture.StartRecording, FileSystem.ofstreamOpen, hidle, hopen]

/-- Unfolding of `StartRecording` on an idle object whose file does not open. -/
theorem AudioCapture.StartRecording_of_fail (self : AudioCapture) (fs : FileSystem)
    (fname : String) (hidle : self.isRecording = false) (hfail : fs.writable fname = false) :
    self.StartRecording fs fname = ⟨false, { isRecording := true, filename := fname }, fs⟩ := by
  simp [AudioCapture.StartRecording, FileSystem.ofstreamOpen, hidle, hfail]

/-- Unfolding of `StartRecording` on an object that is recording. -/
theorem AudioCapture.StartRecording_of_busy (self : AudioCapture) (fs : FileSystem)
    (fname : String) (hbusy : self.isRecording = true) :
    self.StartRecording fs fname = ⟨false, self, fs⟩ := by
  simp [AudioCapture.StartRecording, hbusy]

/-- The value `StartRecording` returns, in one formula. -/
theorem AudioCapture.StartRecording_ret (self : AudioCapture) (fs : FileSystem)
    (fname : String) :
    (self.StartRecording fs fname).ret = (!self.isRecording && fs.writable fname) := by
  cases hrec : self.isRecording
  · cases hw : fs.writable fname
    · rw [AudioCapture.StartRecording_of_fail self fs fname hrec hw]; rfl
    · rw [AudioCapture.StartRecording_of_open self fs fname hrec hw]; rfl
  · rw [AudioCapture.StartRecording_of_busy self fs fname hrec]; rfl

/-- A machine without files on which only `out.wav` opens for writing. -/
def fsOneWritable : FileSystem :=
  { contents := fun _ => none, writable := fun p => p == "out.wav", room := fun _ => 4096 }

/-- A machine holding a 3-byte file `old.wav`; `old.wav` and `new.wav` open for
writing, nothing else does. -/
def fsWithOldFile : FileSystem :=
  { contents := fun p => if p = "old.wav" then some [1, 2, 3] else none,
    writable := fun p => p == "old.wav" || p == "new.wav", room := fun _ => 4096 }

/-- An object in the middle of a recording to `first.wav`. -/
def busyCapture : AudioCapture :=
  { isRecording := true, filename := "first.wav" }

/-! ## StartRecording -/

/-- Claim C2. `StartRecording` returns true exactly when the object was not recording
at the call and the file opened for writing, and false exactly in the two other
cases: the object was recording, or the open failed. -/
theorem StartRecording_true_iff (self : AudioCapture) (fs : FileSystem) (fname : String) :
    ((self.StartRecording fs fname).ret = true ↔
      self.IsRecording = false ∧ fs.writable fname = true) ∧
    ((self.StartRecording fs fname).ret = false ↔
      self.IsRecording = true ∨ fs.writable fname = false) := by
  rw [AudioCapture.StartRecording_ret self fs fname]
  unfold AudioCapture.IsRecording
  cases self.isRecording <;> cases fs.writable fname <;> simp

/-- Claim C4. On an object that is recording, `StartRecording` with any path returns
false and changes nothing: the object (flag true, stored filename) and the file
system come back as they were. Hence on a fresh object a first call with a path
`first` that opens returns true, and a second call with any path `fname` (also
`first` itself) returns false and leaves the object and the file system
untouched, so the file at `first` keeps exactly the contents the first call gave
it: the header, when the write of the first call stored all of it. -/
theorem StartRecording_rejected_while_recording (self : AudioCapture) (fs : FileSystem)
    (fname : String) (fs0 : FileSystem) (first : String)
    (hbusy : self.IsRecording = true) (hopen : fs0.writable first = true) :
    self.StartRecording fs fname = ⟨false, self, fs⟩ ∧
    (AudioCapture.StartRecording {} fs0 first).ret = true ∧
    (AudioCapture.StartRecording {} fs0 first).self.StartRecording
        (AudioCapture.StartRecording {} fs0 first).fs fname
      = ⟨false, (AudioCapture.StartRecording {} fs0 first).self,
          (AudioCapture.StartRecording {} fs0 first).fs⟩ ∧
    ((AudioCapture.StartRecording {} fs0 first).self.StartRecording
        (AudioCapture.StartRecording {} fs0 first).fs fname).fs.contents first
      = (AudioCapture.StartRecording {} fs0 first).fs.contents first ∧
    (wavHeader.length ≤ fs0.room first →
      ((AudioCapture.StartRecording {} fs0 first).self.StartRecording
          (AudioCapture.StartRecording {} fs0 first).fs fname).fs.contents first
        = some wavHeader) := by
  have h1 : self.StartRecording fs fname = ⟨false, self, fs⟩ :=
    AudioCapture.StartRecording_of_busy self fs fname hbusy
  have h2 := AudioCapture.StartRecording_of_open {} fs0 first rfl hopen
  refine ⟨h1, ?_, ?_, ?_, ?_⟩
  · rw [h2]
  · rw [h2]; exact AudioCapture.StartRecording_of_busy _ _ fname rfl
  · rw [h2, AudioCapture.StartRecording_of_busy _ _ fname rfl]
  · intro hroom
    rw [h2, AudioCapture.StartRecording_of_busy _ _ fname rfl]
    exact FileSystem.ofstreamWrite_all fs0 first wavHeader hroom

theorem StartRecording_rejected_while_recording_witness :
    busyCapture.StartRecording fsWithOldFile "old.wav" = ⟨false, busyCapture, fsWithOldFile⟩ ∧
    (AudioCapture.StartRecording {} fsOneWritable "out.wav").ret = true ∧
    (AudioCapture.StartRecording {} fsOneWritable "out.wav").self.StartRecording
        (AudioCapture.StartRecording {} fsOneWritable "out.wav").fs "old.wav"
      = ⟨false, (AudioCapture.StartRecording {} fsOneWritable "out.wav").self,
          (AudioCapture.StartRecording {} fsOneWritable "out.wav").fs⟩ ∧
    ((AudioCapture.StartRecording {} fsOneWritable "out.wav").self.StartRecording
        (AudioCapture.StartRecording {} fsOneWritable "out.wav").fs "old.wav").fs.contents
        "out.wav"
      = some wavHeader :=
  ⟨(StartRecording_rejected_while_recording busyCapture fsWithOldFile "old.wav" fsOneWritable
      "out.wav" rfl (by decide)).1,
   (StartRecording_rejected_while_recording busyCapture fsWithOldFile "old.wav" fsOneWritable
      "out.wav" rfl (by decide)).2.1,
   (StartRecording_rejected_while_recording busyCapture fsWithOldFile "old.wav" fsOneWritable
      "out.wav" rfl (by decide)).2.2.1,
   (StartRecording_rejected_while_recording busyCapture fsWithOldFile "old.wav" fsOneWritable
      "out.wav" rfl (by decide)).2.2.2.2 (by decide)⟩

/-- Claim C5. On an object that is not recording and a path that does not open for
writing, `StartRecording` returns false and the file system is exactly what it
was: no file appears and none changes. -/
theorem StartRecording_open_failure_keeps_files (self : AudioCapture) (fs : FileSystem)
    (fname : String) (hidle : self.IsRecording = false) (hfail : fs.writable fname = false) :
    (self.StartRecording fs fname).ret = false ∧
    (self.StartRecording fs fname).fs = fs := by
  have hidle1 : self.isRecording = false := hidle
  rw [AudioCapture.StartRecording_of_fail self fs fname hidle1 hfail]
  exact ⟨rfl, rfl⟩

theorem StartRecording_open_failure_keeps_files_witness :
    (AudioCapture.StartRecording {} fsOneWritable "/no/such/dir/out.wav").ret = false ∧
    (AudioCapture.StartRecording {} fsOneWritable "/no/such/dir/out.wav").fs = fsOneWritable :=
  StartRecording_open_failure_keeps_files {} fsOneWritable "/no/such/dir/out.wav" rfl
    (by decide)

/-- Claim C3, evaluated on the code. On a fresh object, one `StartRecording` call whose
file does not open returns false and leaves `IsRecording()` true, although no
`StartRecording` call has returned true; a following call with a path that does
open is then rejected as well. So the invariant "after every sequence of calls,
`IsRecording()` is true only if some start returned true and no stop followed the
last such start" does not hold of the code. -/
theorem IsRecording_set_by_failed_start :
    (runCalls fsOneWritable [Call.start "/no/such/dir/out.wav"]).events
      = [Event.started "/no/such/dir/out.wav" false] ∧
    (runCalls fsOneWritable [Call.start "/no/such/dir/out.wav"]).self.IsRecording = true ∧
    startedAndNotStopped (runCalls fsOneWritable [Call.start "/no/such/dir/out.wav"]).events
      = false ∧
    (runCalls fsOneWritable [Call.start "/no/such/dir/out.wav", Call.start "out.wav"]).events
      = [Event.started "/no/such/dir/out.wav" false, Event.started "out.wav" false] ∧
    ¬ (∀ (fs : FileSystem) (calls : List Call),
        (runCalls fs calls).self.IsRecording = true →
          startedAndNotStopped (runCalls fs calls).events = true) := by
  have hfail : fsOneWritable.writable "/no/such/dir/out.wav" = false := by decide
  have h1 : AudioCapture.StartRecording {} fsOneWritable "/no/such/dir/out.wav"
      = ⟨false, { isRecording := true, filename := "/no/such/dir/out.wav" }, fsOneWritable⟩ :=
    AudioCapture.StartRecording_of_fail {} fsOneWritable _ rfl hfail
  have hrun : runCalls fsOneWritable [Call.start "/no/such/dir/out.wav"]
      = ⟨{ isRecording := true, filename := "/no/such/dir/out.wav" }, fsOneWritable,
          [Event.started "/no/such/dir/out.wav" false]⟩ := by
    simp [runCalls, Session.step, h1]
  have hrun2 : runCalls fsOneWritable [Call.start "/no/such/dir/out.wav", Call.start "out.wav"]
      = ⟨{ isRecording := true, filename := "/no/such/dir/out.wav" }, fsOneWritable,
          [Event.started "/no/such/dir/out.wav" false, Event.started "out.wav" false]⟩ := by
    simp [runCalls, Session.step, h1, AudioCapture.StartRecording_of_busy]
  refine ⟨?_, ?_, ?_, ?_, ?_⟩
  · rw [hrun]
  · rw [hrun]; rfl
  · rw [hrun]; rfl
  · rw [hrun2]
  · intro hall
    have h := hall fsOneWritable [Call.start "/no/such/dir/out.wav"]
    rw [hrun] at h
    exact absurd (h rfl) (by decide)

/-! ## StopRecording, and starting again -/

/-- Claim C7. In every state of the module (no session object, a session that is not
recording, a session that is recording) and for every argument list, the
`stopRecording` binding returns `true` and throws nothing, leaves the file system
as it was, leaves the stored filename (and the absence of a session object) as it
was, and leaves the recording flag false; when there is no session object or the
session is not recording, the whole state is unchanged. -/
theorem stopRecording_binding_frame (w : World) (info : List JsValue) :
    (NanMethod.StopRecording w info).outcome = CallOutcome.returned (JsValue.boolean true) ∧
    (NanMethod.StopRecording w info).world.fs = w.fs ∧
    (NanMethod.StopRecording w info).world.capture.map AudioCapture.filename
      = w.capture.map AudioCapture.filename ∧
    (NanMethod.StopRecording w info).world.recording = false ∧
    (w.recording = false → (NanMethod.StopRecording w info).world = w) := by
  obtain ⟨cap, fs⟩ := w
  cases cap with
  | none => simp [NanMethod.StopRecording, World.recording]
  | some c =>
    obtain ⟨flag, name⟩ := c
    cases flag <;>
      simp [NanMethod.StopRecording, World.recording, AudioCapture.StopRecording,
        AudioCapture.IsRecording]

theorem stopRecording_binding_frame_witness :
    (NanMethod.StopRecording ⟨none, fsWithOldFile⟩ []).world = ⟨none, fsWithOldFile⟩ ∧
    (NanMethod.StopRecording ⟨some busyCapture, fsWithOldFile⟩ []).world.recording = false ∧
    (NanMethod.StopRecording ⟨some busyCapture, fsWithOldFile⟩ []).world.capture.map
      AudioCapture.filename = some "first.wav" :=
  ⟨(stopRecording_binding_frame ⟨none, fsWithOldFile⟩ []).2.2.2.2 rfl,
   (stopRecording_binding_frame ⟨some busyCapture, fsWithOldFile⟩ []).2.2.2.1,
   (stopRecording_binding_frame ⟨some busyCapture, fsWithOldFile⟩ []).2.2.1⟩

/-! ## The startRecording binding -/

/-- Claim C8. When the argument list is empty or the first argument is not a string,
the `startRecording` binding throws the type error and returns no boolean, with
the whole state (absence or fields of the session object, file system) as it
was. When the first argument is a string `s`, the binding throws nothing and
returns the boolean `AudioCapture::StartRecording` produced, the method being
called on the existing session object, or on a fresh one when there was none,
with the C string of `s`; the state afterwards is what that call left. -/
theorem startRecording_binding_usage (w : World) (info : List JsValue) :
    (info.length < 1 ∨ (argAt info 0).IsString = false →
      (NanMethod.StartRecording w info).outcome
        = CallOutcome.threwTypeError "Expected filename string" ∧
      (NanMethod.StartRecording w info).world = w) ∧
    (∀ (s : String) (rest : List JsValue), info = JsValue.string s :: rest →
      (NanMethod.StartRecording w info).outcome
        = CallOutcome.returned (JsValue.boolean
            (AudioCapture.StartRecording (w.capture.getD {}) w.fs (cString s)).ret) ∧
      (NanMethod.StartRecording w info).world
        = ⟨some (AudioCapture.StartRecording (w.capture.getD {}) w.fs (cString s)).self,
            (AudioCapture.StartRecording (w.capture.getD {}) w.fs (cString s)).fs⟩) := by
  constructor
  · intro h
    have hguard : (decide (info.length < 1) || !(argAt info 0).IsString) = true := by
      rcases h with h | h
      · simp [h]
      · simp [h]
    simp only [NanMethod.StartRecording, hguard, if_true, and_self]
  · intro s rest hinfo
    subst hinfo
    obtain ⟨cap, fs⟩ := w
    cases cap <;>
      simp [NanMethod.StartRecording, argAt, JsValue.IsString, Utf8String]

theorem startRecording_binding_usage_witness :
    (NanMethod.StartRecording ⟨none, fsOneWritable⟩ []).outcome
      = CallOutcome.threwTypeError "Expected filename string" ∧
    (NanMethod.StartRecording ⟨none, fsOneWritable⟩ [JsValue.number 42]).world
      = ⟨none, fsOneWritable⟩ ∧
    (NanMethod.StartRecording ⟨none, fsOneWritable⟩ [JsValue.string "out.wav"]).outcome
      = CallOutcome.returned (JsValue.boolean
          (AudioCapture.StartRecording {} fsOneWritable (cString "out.wav")).ret) :=
  ⟨((startRecording_binding_usage ⟨none, fsOneWritable⟩ []).1 (Or.inl (by decide))).1,
   ((startRecording_binding_usage ⟨none, fsOneWritable⟩ [JsValue.number 42]).1
      (Or.inr rfl)).2,
   ((startRecording_binding_usage ⟨none, fsOneWritable⟩ [JsValue.string "out.wav"]).2
      "out.wav" [] rfl).1⟩

/-! ## The bytes of the header -/

/-- Claim C10 as stated fails on the data chunk size. The claim has exactly the two
zero size fields disagree with the self-consistency rules; in the 44-byte file
nothing follows the header, so the data chunk size 0 is the length of the sample
data and that field agrees. -/
theorem wavHeader_dataChunkSize_agrees :
    le32 wavHeader 40 = 0 ∧
    wavHeader.length - 44 = 0 ∧
    fieldAgrees wavHeader DerivedField.dataChunkSize = true ∧
    ¬ (∀ f : DerivedField, fieldAgrees wavHeader f = false ↔
        (f = DerivedField.riffChunkSize ∨ f = DerivedField.dataChunkSize)) := by
  refine ⟨by decide, by decide, by decide, ?_⟩
  intro h
  have h1 := (h DerivedField.dataChunkSize).2 (Or.inr rfl)
  exact absurd h1 (by decide)

/-- Claim C10, amended. The block-align field at bytes 32..33 is
`channels * bitsPerSample / 8 = 4` and the byte-rate field at bytes 28..31 is
`sampleRate * blockAlign = 44100 * 4 = 176400`; of the derived fields of the
written 44-byte file, the only one that disagrees with the self-consistency
rules is the RIFF chunk size, 0 where the file has 36 bytes after that field. -/
theorem wavHeader_derived_fields :
    le16 wavHeader 32 = 4 ∧
    le16 wavHeader 32 = le16 wavHeader 22 * le16 wavHeader 34 / 8 ∧
    le32 wavHeader 28 = 176400 ∧
    le32 wavHeader 28 = le32 wavHeader 24 * le16 wavHeader 32 ∧
    44100 * 4 = 176400 ∧
    le32 wavHeader 4 = 0 ∧
    wavHeader.length - 8 = 36 ∧
    (∀ f : DerivedField, fieldAgrees wavHeader f = false ↔ f = DerivedField.riffChunkSize) := by
  refine ⟨by decide, by decide, by decide, by decide, by decide, by decide, by decide, ?_⟩
  intro f
  cases f <;> decide

end StubRecorder
